import Mathlib

/-!
Shallow embedding of the credential & trust management core of the
`claude-code-containers` worker, together with proofs about it.

The embedding mirrors the TypeScript sources:
  * `verifyGitHubSignature`, `handleGitHubWebhook`, `routeWebhookEvent`
    from the webhook handler module,
  * `encrypt` / `decrypt` from the crypto module (with the platform
    primitives `crypto.subtle` AES-GCM, `TextEncoder`/`TextDecoder`, and
    `crypto.subtle.sign` HMAC taken as parameters, and `btoa`/`atob`
    implemented concretely),
  * the `GitHubAppConfigDO` durable-object methods (`storeAppConfig`,
    `addRepository`, `removeRepository`, `getDecryptedCredentials`,
    `getCachedInstallationToken`, `storeInstallationTokenSQLite`,
    `getInstallationToken`) as explicit state-passing functions over a
    `TenantState`,
  * `containerFetch` from the fetch wrapper module.

JavaScript strings are modelled by `String`, byte arrays (`Uint8Array`)
by `List Nat` with every entry below 256, and epoch timestamps
(`Date.getTime()` milliseconds and ISO-8601 strings, which compare
lexicographically exactly as they compare chronologically) by `Nat`.
Asynchronous platform effects (WebCrypto, the GitHub token-exchange
endpoint, the durable-object sub-fetches, JSON parsing) are passed in as
explicit oracle functions, and observable effects of the webhook handler
are recorded in a trace structure.
-/

/-- JavaScript falsiness of a nullable string: `null`/`undefined` and the
empty string are falsy (`!s` in the source). -/
def falsyOpt : Option String → Bool
  | none => true
  | some s => s.isEmpty

/-- Boolean test that `p` is a prefix of `s` (models
`String.prototype.startsWith` on the character level). -/
def isPrefixL : List Char → List Char → Bool
  | [], _ => true
  | _ :: _, [] => false
  | p :: ps, c :: cs => p == c && isPrefixL ps cs

/-- Lowercase hex digit, as produced by `Number.prototype.toString(16)`. -/
def hexChar (n : Nat) : Char :=
  if n < 10 then Char.ofNat (48 + n) else Char.ofNat (87 + n)

/-- Hex characters of a byte list: each byte contributes
`byte.toString(16).padStart(2, '0')`, i.e. exactly two lowercase digits. -/
def hexList : List Nat → List Char
  | [] => []
  | b :: bs => hexChar (b / 16) :: hexChar (b % 16) :: hexList bs

/-- `Array.from(bytes).map(b => b.toString(16).padStart(2, '0')).join('')`. -/
def bytesToHex (bs : List Nat) : String :=
  String.mk (hexList bs)

/-! ### WebhookAuthenticator: `verifyGitHubSignature`

Source: the webhook handler module, `verifyGitHubSignature(payload,
signature, secret)`.  The HMAC-SHA256 primitive (`crypto.subtle.importKey`
+ `crypto.subtle.sign('HMAC', ...)`) is a platform function; it is passed
in as `hmac : String → String → List Nat`, taking the secret and the raw
payload to the digest bytes. -/

/-- `verifyGitHubSignature`.  The source first rejects when the header is
falsy or lacks the literal prefix `sha256=`; then it strips that prefix
(`signature.replace('sha256=', '')` replaces only the first occurrence,
which under the `startsWith` guard is exactly the leading 7 characters),
computes the lowercase hex HMAC digest, and compares with `===`. -/
def verifyGitHubSignature (hmac : String → String → List Nat)
    (payload signature secret : String) : Bool :=
  if !(isPrefixL "sha256=".data signature.data) then
    false
  else
    let sigHex := String.mk (signature.data.drop 7)
    let computedHex := bytesToHex (hmac secret payload)
    sigHex == computedHex

/-! ### CryptoBox: `encrypt` / `decrypt`

Source: the crypto module.  `btoa`/`atob` (binary-string base64) are
implemented concretely below over byte lists; AES-GCM and the UTF-8
`TextEncoder`/`TextDecoder` are platform primitives passed as parameters.
The random 96-bit nonce `crypto.getRandomValues(new Uint8Array(12))` is
modelled as an explicit `iv` argument. -/

/-- Character of a base64 sextet (the standard alphabet used by `btoa`). -/
def b64Char (n : Nat) : Char :=
  if n < 26 then Char.ofNat (65 + n)
  else if n < 52 then Char.ofNat (97 + (n - 26))
  else if n < 62 then Char.ofNat (48 + (n - 52))
  else if n = 62 then '+'
  else '/'

/-- Sextet of a base64 character (the decoding table used by `atob`). -/
def b64Index (c : Char) : Nat :=
  let n := c.toNat
  if 65 ≤ n ∧ n ≤ 90 then n - 65
  else if 97 ≤ n ∧ n ≤ 122 then n - 97 + 26
  else if 48 ≤ n ∧ n ≤ 57 then n - 48 + 52
  else if c = '+' then 62
  else 63

/-- `btoa` on a byte list: 3-byte groups become 4 sextet characters; a
final group of 1 or 2 bytes is padded with `=`. -/
def btoaBytes : List Nat → List Char
  | [] => []
  | [a] => [b64Char (a / 4), b64Char (a % 4 * 16), '=', '=']
  | [a, b] => [b64Char (a / 4), b64Char (a % 4 * 16 + b / 16), b64Char (b % 16 * 4), '=']
  | a :: b :: c :: rest =>
    b64Char (a / 4) :: b64Char (a % 4 * 16 + b / 16) ::
    b64Char (b % 16 * 4 + c / 64) :: b64Char (c % 64) :: btoaBytes rest

/-- `atob` back to a byte list, for well-formed base64: 4-character groups
yield 3 bytes, with `=` padding marking a short final group. -/
def atobChars : List Char → List Nat
  | c0 :: c1 :: c2 :: c3 :: rest =>
    if c2 = '=' then
      [b64Index c0 * 4 + b64Index c1 / 16]
    else if c3 = '=' then
      [b64Index c0 * 4 + b64Index c1 / 16,
       b64Index c1 % 16 * 16 + b64Index c2 / 4]
    else
      (b64Index c0 * 4 + b64Index c1 / 16) ::
      (b64Index c1 % 16 * 16 + b64Index c2 / 4) ::
      (b64Index c2 % 4 * 64 + b64Index c3) ::
      atobChars rest
  | _ => []

/-- `encrypt(text)` with the AES-GCM primitive `aesEnc iv plaintextBytes`
and the `TextEncoder` primitive `utf8Enc` passed in: encode the text,
encrypt it, prepend the 12-byte `iv`, and base64 the combined bytes. -/
def encrypt (aesEnc : List Nat → List Nat → List Nat)
    (utf8Enc : String → List Nat) (iv : List Nat) (text : String) : String :=
  let encodedText := utf8Enc text
  let encrypted := aesEnc iv encodedText
  let combined := iv ++ encrypted
  String.mk (btoaBytes combined)

/-- `decrypt(encryptedText)` with the AES-GCM primitive
`aesDec iv cipherBytes` and the `TextDecoder` primitive `utf8Dec` passed
in: base64-decode, split off the first 12 bytes as the `iv`, decrypt the
rest, and decode the plaintext bytes. -/
def decrypt (aesDec : List Nat → List Nat → List Nat)
    (utf8Dec : List Nat → String) (encryptedText : String) : String :=
  let combined := atobChars encryptedText.data
  let iv := combined.take 12
  let encrypted := combined.drop 12
  utf8Dec (aesDec iv encrypted)

/-! ### CredentialVault / TokenCache state

Source: the `GitHubAppConfigDO` durable object.  Its SQLite tables are
modelled as plain data: the single `github_app_config` row (`id = 1`,
`INSERT OR REPLACE`) as an `Option GitHubAppConfig`, and the
`installation_tokens` table as a `List TokenRow`.  ISO-8601 timestamp
strings compare lexicographically exactly as chronologically, so both
`expires_at`/`created_at` strings and `Date.getTime()` values are
modelled as `Nat` epoch milliseconds. -/

/-- `Repository` interface of the source (`private` renamed, a keyword). -/
structure Repository where
  id : Nat
  name : String
  full_name : String
  isPrivate : Bool
deriving DecidableEq, Repr

/-- Owner object of a `GitHubAppConfig` (`login`, `type`, `id`). -/
structure Owner where
  login : String
  type : String
  id : Nat
deriving DecidableEq, Repr

/-- `GitHubAppConfig` as read back by `getAppConfig` from the single
SQLite row.  (`updated_at` is written but never read back, so it is not
part of the observable state.)  `permissions` and `events` are stored and
returned as opaque JSON strings here. -/
structure GitHubAppConfig where
  appId : String
  privateKey : String
  webhookSecret : String
  installationId : Option String
  owner : Owner
  permissions : String
  events : String
  repositories : List Repository
  createdAt : String
  lastWebhookAt : Option String
  webhookCount : Nat
deriving DecidableEq, Repr

/-- One row of the `installation_tokens` table. -/
structure TokenRow where
  token : String
  expires_at : Nat
  created_at : Nat
deriving DecidableEq, Repr

/-- Observable storage of one tenant partition (one durable object). -/
structure TenantState where
  config : Option GitHubAppConfig
  tokens : List TokenRow
deriving DecidableEq, Repr

/-- Decrypted credential pair returned by `getDecryptedCredentials`. -/
structure Credentials where
  privateKey : String
  webhookSecret : String
deriving DecidableEq, Repr

/-- `{token, expires_at}` returned by `generateInstallationToken`. -/
structure TokenData where
  token : String
  expires_at : Nat
deriving DecidableEq, Repr

/-- `storeAppConfig` / `storeAppConfigSQLite`: `INSERT OR REPLACE` of the
single `id = 1` row. -/
def storeAppConfig (st : TenantState) (cfg : GitHubAppConfig) : TenantState :=
  { st with config := some cfg }

/-- `addRepository(repo)`: no-op when a repository with the same id is
already present, otherwise push and store. -/
def addRepository (st : TenantState) (repo : Repository) : TenantState :=
  match st.config with
  | none => st
  | some cfg =>
    if cfg.repositories.any (fun r => r.id == repo.id) then st
    else storeAppConfig st { cfg with repositories := cfg.repositories ++ [repo] }

/-- `removeRepository(repoId)`: filter out the id and store. -/
def removeRepository (st : TenantState) (repoId : Nat) : TenantState :=
  match st.config with
  | none => st
  | some cfg =>
    storeAppConfig st { cfg with repositories := cfg.repositories.filter (fun r => !(r.id == repoId)) }

/-- Repository list of a tenant state (empty when unconfigured), as read
back through `getAppConfig`. -/
def reposOf (st : TenantState) : List Repository :=
  match st.config with
  | none => []
  | some cfg => cfg.repositories

/-- `getDecryptedCredentials`.  The platform `decrypt` of the crypto
module may throw (`DecryptionError`); the try/catch converts any throw to
`null`, so the primitive is modelled by an oracle
`dec : String → Option String` with `none` for a throw. -/
def getDecryptedCredentials (st : TenantState) (dec : String → Option String) :
    Option Credentials :=
  match st.config with
  | none => none
  | some cfg =>
    match dec cfg.privateKey, dec cfg.webhookSecret with
    | some privateKey, some webhookSecret => some ⟨privateKey, webhookSecret⟩
    | _, _ => none

/-- `getCachedInstallationToken`: `SELECT * FROM installation_tokens
ORDER BY created_at DESC LIMIT 1` — the row with the greatest
`created_at` (the earliest such row on ties). -/
def getCachedInstallationToken (tokens : List TokenRow) : Option TokenRow :=
  tokens.foldl
    (fun acc r =>
      match acc with
      | none => some r
      | some best => if best.created_at < r.created_at then some r else some best)
    none

/-- `storeInstallationTokenSQLite(token, expiresAt)`: first
`DELETE FROM installation_tokens WHERE expires_at < now`, then insert the
new row with `created_at = now`. -/
def storeInstallationTokenSQLite (tokens : List TokenRow)
    (token : String) (expiresAt : Nat) (now : Nat) : List TokenRow :=
  tokens.filter (fun r => !decide (r.expires_at < now)) ++ [⟨token, expiresAt, now⟩]

/-- Result of a `getInstallationToken` call: the returned token, whether
the outbound GitHub token-exchange call (`generateInstallationToken`'s
`fetch`) was made, and the updated partition state. -/
structure GetTokenResult where
  result : Option String
  networkCalled : Bool
  state : TenantState
deriving DecidableEq, Repr

/-- `getInstallationToken`.  `dec` is the decryption oracle of
`getDecryptedCredentials`; `exchange` is the oracle for
`generateInstallationToken` (which performs the outbound POST and returns
`null` on a non-success response, never throwing). -/
def getInstallationToken (st : TenantState) (now : Nat)
    (dec : String → Option String) (exchange : Option TokenData) : GetTokenResult :=
  match st.config with
  | none => ⟨none, false, st⟩
  | some cfg =>
    if falsyOpt cfg.installationId then ⟨none, false, st⟩
    else
      let refresh : GetTokenResult :=
        match getDecryptedCredentials st dec with
        | none => ⟨none, false, st⟩
        | some _ =>
          match exchange with
          | some tokenData =>
            ⟨some tokenData.token, true,
             { st with tokens := storeInstallationTokenSQLite st.tokens tokenData.token tokenData.expires_at now }⟩
          | none => ⟨none, true, st⟩
      match getCachedInstallationToken st.tokens with
      | some cached =>
        if ((cached.expires_at : Int) - (now : Int) > 5 * 60 * 1000) then
          ⟨some cached.token, false, st⟩
        else refresh
      | none => refresh

/-- Operations addressed to one tenant partition (the durable-object
endpoints that mutate or read the modelled state). -/
inductive TenantOp where
  | storeConfig (cfg : GitHubAppConfig)
  | getToken (now : Nat) (dec : String → Option String) (exchange : Option TokenData)
  | addRepo (repo : Repository)
  | removeRepo (id : Nat)

/-- Effect of one operation on the partition state (operations on a
partition are serialized by the platform, so a sequence is a fold). -/
def stepOp (st : TenantState) : TenantOp → TenantState
  | .storeConfig cfg => storeAppConfig st cfg
  | .getToken now dec exchange => (getInstallationToken st now dec exchange).state
  | .addRepo repo => addRepository st repo
  | .removeRepo id => removeRepository st id

/-- A fresh partition: no config row, no cached tokens. -/
def initialState : TenantState := ⟨none, []⟩

/-- State reached by a sequence of operations from a fresh partition. -/
def runOps (ops : List TenantOp) : TenantState :=
  ops.foldl stepOp initialState

/-! ### DispatchGateway: `containerFetch`

Source: the fetch wrapper module.  The race between `container.fetch` and
the timeout promise is modelled by an oracle `FetchOutcome` saying which
side of `Promise.race` settled first and how; the try/catch converts any
rejection into a structured JSON 500 response. -/

/-- The JSON object `JSON.stringify`-ed into the failure body. -/
structure ErrorBody where
  error : String
  message : String
  containerName : String
  route : String
deriving DecidableEq, Repr

/-- Body of a gateway response: either a downstream body passed through
verbatim, or the structured failure object. -/
inductive FetchBody where
  | passthrough (body : String)
  | structuredError (e : ErrorBody)
deriving DecidableEq, Repr

/-- A `Response` as observed on the gateway boundary. -/
structure FetchResponse where
  status : Nat
  body : FetchBody
deriving DecidableEq, Repr

/-- How the `Promise.race` settled: the downstream call resolved with a
response (whatever its status), the downstream call rejected with an
error message, or the timeout timer fired first. -/
inductive FetchOutcome where
  | completed (r : FetchResponse)
  | errored (msg : String)
  | timedOut

/-- `ContainerFetchOptions` (`containerName?`, `route?`, `timeout?`). -/
structure ContainerFetchOptions where
  containerName : Option String
  route : Option String
  timeout : Option Nat

/-- `containerFetch(container, request, options)`.  Defaults
`containerName = 'unknown'`, `route = 'unknown'`, `timeout = 300000` are
applied by destructuring; a resolved response is returned as-is, and any
rejection (transport failure or the timeout's
`Container fetch timeout after NNNms` error) is caught and turned into a
status-500 response with the structured JSON body. -/
def containerFetch (outcome : FetchOutcome) (options : ContainerFetchOptions) :
    FetchResponse :=
  let containerName := options.containerName.getD "unknown"
  let route := options.route.getD "unknown"
  let timeout := options.timeout.getD 300000
  match outcome with
  | .completed r => r
  | .errored msg =>
    ⟨500, .structuredError ⟨"Container fetch failed", msg, containerName, route⟩⟩
  | .timedOut =>
    ⟨500, .structuredError
      ⟨"Container fetch failed",
       "Container fetch timeout after " ++ toString timeout ++ "ms",
       containerName, route⟩⟩

/-! ### EventRouter: `handleGitHubWebhook` / `routeWebhookEvent`

Source: the webhook handler module.  The inbound `Request` is modelled by
its payload text and the four headers the handler reads; JSON parsing,
the config-DO `get-credentials` sub-fetch, the HMAC primitive, and the
three event handlers are oracles.  The observable effects (tenant
resolution attempted, credentials fetched, signature verified, webhook
logged, event routed) are recorded in the result trace. -/

/-- The headers and body of an inbound webhook request:
`x-hub-signature-256`, `x-github-event`, `x-github-delivery`, and
`x-github-hook-installation-target-id`. -/
structure WebhookRequest where
  payload : String
  signature : Option String
  event : Option String
  delivery : Option String
  hookInstallationTargetId : Option String

/-- The two fields of the parsed JSON payload the routing logic reads:
`installation.app_id` (stringified) and `installation.id`.  `none` models
an absent or falsy field. -/
structure ParsedPayload where
  installationAppId : Option String
  installationId : Option String

/-- The decrypted-credentials JSON returned by the config DO
(`/get-credentials` serializes `getDecryptedCredentials`, so the JSON is
`null` or an object whose fields may be absent). -/
structure CredsJson where
  privateKey : Option String
  webhookSecret : Option String

/-- Outcome of the `configDO.fetch('http://internal/get-credentials')`
sub-request: a non-ok response, or an ok response with its JSON value. -/
inductive CredsFetch where
  | fetchFail
  | fetchOk (creds : Option CredsJson)

/-- An HTTP response of the webhook handler (status and body text). -/
structure WebhookResponse where
  status : Nat
  body : String
deriving DecidableEq, Repr

/-- Result of `handleGitHubWebhook`: the response plus the effect trace. -/
structure WebhookResult where
  response : WebhookResponse
  tenantResolved : Bool
  credentialsFetched : Bool
  signatureChecked : Bool
  webhookLogged : Bool
  routedTo : Option String

/-- `routeWebhookEvent`: dispatch on the event name; any event other than
the three handled ones is acknowledged with 200. -/
def routeWebhookEvent (event : String) (handlers : String → WebhookResponse) :
    WebhookResponse :=
  if event == "installation" || event == "installation_repositories" || event == "issues" then
    handlers event
  else
    ⟨200, "Event acknowledged"⟩

/-- Verification/logging/routing tail of `handleGitHubWebhook`, entered
once a webhook secret has been obtained. -/
def webhookWithSecret (req : WebhookRequest) (hmac : String → String → List Nat)
    (handlers : String → WebhookResponse) (event signature webhookSecret : String) :
    WebhookResult :=
  let isValid := verifyGitHubSignature hmac req.payload signature webhookSecret
  if !isValid then
    ⟨⟨401, "Invalid signature"⟩, true, true, true, false, none⟩
  else
    ⟨routeWebhookEvent event handlers, true, true, true, true, some event⟩

/-- Credential-retrieval stage of `handleGitHubWebhook`, entered once the
tenant app id has been resolved: a non-ok config response is 404, a null
credentials object or falsy webhook secret is 500, otherwise verify. -/
def webhookAfterTenant (req : WebhookRequest) (credsFetch : String → CredsFetch)
    (hmac : String → String → List Nat) (handlers : String → WebhookResponse)
    (event signature appId : String) : WebhookResult :=
  match credsFetch appId with
  | .fetchFail => ⟨⟨404, "App not configured"⟩, true, true, false, false, none⟩
  | .fetchOk none => ⟨⟨500, "Webhook secret not found"⟩, true, true, false, false, none⟩
  | .fetchOk (some creds) =>
    if falsyOpt creds.webhookSecret then
      ⟨⟨500, "Webhook secret not found"⟩, true, true, false, false, none⟩
    else
      webhookWithSecret req hmac handlers event signature (creds.webhookSecret.getD "")

/-- `handleGitHubWebhook`.  In source order: reject when any of the three
required headers is falsy; reject an unparseable JSON payload; acknowledge
`ping` events immediately; resolve the tenant app id from
`installation.app_id`, else from the installation-target header (400 when
that fails); fetch and check credentials; verify the signature (401 on
mismatch); log the webhook delivery; route to the event handler. -/
def handleGitHubWebhook (req : WebhookRequest)
    (parse : String → Option ParsedPayload)
    (credsFetch : String → CredsFetch)
    (hmac : String → String → List Nat)
    (handlers : String → WebhookResponse) : WebhookResult :=
  if falsyOpt req.signature || falsyOpt req.event || falsyOpt req.delivery then
    ⟨⟨400, "Missing required headers"⟩, false, false, false, false, none⟩
  else
    match parse req.payload with
    | none => ⟨⟨400, "Invalid JSON payload"⟩, false, false, false, false, none⟩
    | some webhookData =>
      let event := req.event.getD ""
      let signature := req.signature.getD ""
      if event == "ping" then
        ⟨⟨200, "Webhook endpoint is active"⟩, false, false, false, false, none⟩
      else
        match webhookData.installationAppId with
        | some appId => webhookAfterTenant req credsFetch hmac handlers event signature appId
        | none =>
          match webhookData.installationId with
          | some _ =>
            if falsyOpt req.hookInstallationTargetId then
              ⟨⟨400, "Cannot determine app ID"⟩, true, false, false, false, none⟩
            else
              webhookAfterTenant req credsFetch hmac handlers event signature
                (req.hookInstallationTargetId.getD "")
          | none =>
            if falsyOpt req.hookInstallationTargetId then
              ⟨⟨400, "No installation information"⟩, true, false, false, false, none⟩
            else
              webhookAfterTenant req credsFetch hmac handlers event signature
                (req.hookInstallationTargetId.getD "")

/-! ### Concrete fixtures used by witnesses and counterexamples -/

/-- A configured tenant: encrypted credentials and an installation id. -/
def cfg0 : GitHubAppConfig :=
  ⟨"987", "enc-private-key", "enc-webhook-secret", some "42",
   ⟨"octo", "User", 7⟩, "issues:write", "issues", [], "2024-01-01T00:00:00Z", none, 0⟩

/-- A tenant partition holding one cached installation token that expires
at epoch-millisecond 10000000. -/
def st0 : TenantState :=
  ⟨some cfg0, [⟨"tokA", 10000000, 0⟩]⟩

/-- Operations leading to a partition with two cached tokens: configure
the tenant, obtain a token at time 0 (expiring at 3600000), then obtain a
fresh token at time 3480000 — two minutes before expiry, so the cache is
bypassed, and the old token is not yet expired, so the purge keeps it. -/
def cexOps : List TenantOp :=
  [.storeConfig cfg0,
   .getToken 0 (fun _ => some "k") (some ⟨"t1", 3600000⟩),
   .getToken 3480000 (fun _ => some "k") (some ⟨"t2", 7080000⟩)]

/-- A gateway response that is the normalized structured failure: status
500 and the JSON object with the `error`, `message`, `containerName` and
`route` fields. -/
def isStructuredFailure (r : FetchResponse) (containerName route : String) : Prop :=
  r.status = 500 ∧
    ∃ msg, r.body = .structuredError ⟨"Container fetch failed", msg, containerName, route⟩

/-! ### Helper lemmas -/

theorem isPrefixL_iff (p : List Char) : ∀ s : List Char,
    isPrefixL p s = true ↔ ∃ t, s = p ++ t := by
  induction p with
  | nil =>
    intro s
    simp [isPrefixL]
  | cons a ps ih =>
    intro s
    cases s with
    | nil => simp [isPrefixL]
    | cons c cs =>
      simp only [isPrefixL, Bool.and_eq_true, beq_iff_eq, ih, List.cons_append,
        List.cons.injEq]
      constructor
      · rintro ⟨rfl, t, rfl⟩
        exact ⟨t, rfl, rfl⟩
      · rintro ⟨t, rfl, rfl⟩
        exact ⟨rfl, t, rfl⟩

theorem isPrefixL_append (p t : List Char) : isPrefixL p (p ++ t) = true :=
  (isPrefixL_iff p (p ++ t)).mpr ⟨t, rfl⟩

/-! ### Claim C1 -/

/-- Claim C1: for every payload, signature header and secret (and any
HMAC-SHA256 digest primitive), `verifyGitHubSignature` returns true
exactly when the header is the literal prefix `sha256=` followed by the
lowercase hex encoding of the HMAC digest of the payload keyed by the
secret.  In particular it returns false when the header lacks the prefix,
and whenever the digest of the presented (payload, secret) pair differs
from the one the header encodes — e.g. an altered payload byte or a
different secret. -/
theorem verifyGitHubSignature_iff (hmac : String → String → List Nat)
    (payload signature secret : String) :
    verifyGitHubSignature hmac payload signature secret = true ↔
      signature = "sha256=" ++ bytesToHex (hmac secret payload) := by
  unfold verifyGitHubSignature
  cases h : isPrefixL "sha256=".data signature.data with
  | false =>
    simp only [h, Bool.not_false, if_true]
    constructor
    · intro hh; exact absurd hh (by simp)
    · intro heq
      have hp : isPrefixL "sha256=".data signature.data = true := by
        rw [heq, String.data_append]; exact isPrefixL_append _ _
      rw [hp] at h; exact absurd h (by simp)
  | true =>
    simp only [h, Bool.not_true, Bool.false_eq_true, if_false, beq_iff_eq]
    obtain ⟨t, ht⟩ := (isPrefixL_iff _ _).mp h
    constructor
    · intro hmk
      apply String.ext
      rw [String.data_append, ht]
      have hdrop : signature.data.drop 7 = t := by
        rw [ht]; exact List.drop_left' (by decide)
      rw [hdrop] at hmk
      rw [← hmk]
    · intro hq
      have hd : signature.data = "sha256=".data ++ (bytesToHex (hmac secret payload)).data := by
        rw [hq, String.data_append]
      rw [hd, List.drop_left' (by decide)]

theorem b64Index_b64Char : ∀ n, n < 64 → b64Index (b64Char n) = n := by decide

theorem b64Char_ne_pad : ∀ n, n < 64 → b64Char n ≠ '=' := by decide

/-- `atob` inverts `btoa` on byte lists (entries below 256). -/
theorem atob_btoa : ∀ bs : List Nat, (∀ b ∈ bs, b < 256) →
    atobChars (btoaBytes bs) = bs
  | [], _ => rfl
  | [a], h => by
    have ha : a < 256 := h a (by simp)
    have h1 : a / 4 < 64 := by omega
    have h2 : a % 4 * 16 < 64 := by omega
    have e : atobChars (btoaBytes [a]) =
        [b64Index (b64Char (a / 4)) * 4 + b64Index (b64Char (a % 4 * 16)) / 16] := rfl
    rw [e, b64Index_b64Char _ h1, b64Index_b64Char _ h2]
    have e1 : a / 4 * 4 + a % 4 * 16 / 16 = a := by omega
    rw [e1]
  | [a, b], h => by
    have ha : a < 256 := h a (by simp)
    have hb : b < 256 := h b (by simp)
    have h1 : a / 4 < 64 := by omega
    have h2 : a % 4 * 16 + b / 16 < 64 := by omega
    have h3 : b % 16 * 4 < 64 := by omega
    simp only [btoaBytes, atobChars]
    rw [if_neg (b64Char_ne_pad _ h3), if_pos trivial,
      b64Index_b64Char _ h1, b64Index_b64Char _ h2, b64Index_b64Char _ h3]
    have e1 : a / 4 * 4 + (a % 4 * 16 + b / 16) / 16 = a := by omega
    have e2 : (a % 4 * 16 + b / 16) % 16 * 16 + b % 16 * 4 / 4 = b := by omega
    rw [e1, e2]
  | [a, b, c], h => by
    have ha : a < 256 := h a (by simp)
    have hb : b < 256 := h b (by simp)
    have hc : c < 256 := h c (by simp)
    have h1 : a / 4 < 64 := by omega
    have h2 : a % 4 * 16 + b / 16 < 64 := by omega
    have h3 : b % 16 * 4 + c / 64 < 64 := by omega
    have h4 : c % 64 < 64 := by omega
    simp only [btoaBytes, atobChars]
    rw [if_neg (b64Char_ne_pad _ h3), if_neg (b64Char_ne_pad _ h4),
      b64Index_b64Char _ h1, b64Index_b64Char _ h2, b64Index_b64Char _ h3,
      b64Index_b64Char _ h4]
    have e1 : a / 4 * 4 + (a % 4 * 16 + b / 16) / 16 = a := by omega
    have e2 : (a % 4 * 16 + b / 16) % 16 * 16 + (b % 16 * 4 + c / 64) / 4 = b := by omega
    have e3 : (b % 16 * 4 + c / 64) % 4 * 64 + c % 64 = c := by omega
    rw [e1, e2, e3]
  | a :: b :: c :: d :: rest, h => by
    have ha : a < 256 := h a (by simp)
    have hb : b < 256 := h b (by simp)
    have hc : c < 256 := h c (by simp)
    have h1 : a / 4 < 64 := by omega
    have h2 : a % 4 * 16 + b / 16 < 64 := by omega
    have h3 : b % 16 * 4 + c / 64 < 64 := by omega
    have h4 : c % 64 < 64 := by omega
    have ih := atob_btoa (d :: rest) (fun x hx => h x (by simp at hx ⊢; tauto))
    simp only [btoaBytes, atobChars]
    rw [if_neg (b64Char_ne_pad _ h3), if_neg (b64Char_ne_pad _ h4),
      b64Index_b64Char _ h1, b64Index_b64Char _ h2, b64Index_b64Char _ h3,
      b64Index_b64Char _ h4]
    have e1 : a / 4 * 4 + (a % 4 * 16 + b / 16) / 16 = a := by omega
    have e2 : (a % 4 * 16 + b / 16) % 16 * 16 + (b % 16 * 4 + c / 64) / 4 = b := by omega
    have e3 : (b % 16 * 4 + c / 64) % 4 * 64 + c % 64 = c := by omega
    rw [e1, e2, e3]
    exact congrArg _ (congrArg _ (congrArg _ ih))

/-! ### Claim C2 -/

/-- Claim C2: decrypting the result of encrypting a string yields the
string back.  The AES-GCM and UTF-8 platform primitives are parameters;
the hypotheses state exactly their contracts at the encrypted input: the
nonce is the 12 random bytes of `crypto.getRandomValues(new
Uint8Array(12))`, the cipher emits bytes, AES-GCM decryption under the
same key and nonce inverts encryption, and `TextDecoder` inverts
`TextEncoder`.  The base64 framing `nonce ++ ciphertext` done by the
source itself is proved to round-trip. -/
theorem decrypt_encrypt (aesEnc aesDec : List Nat → List Nat → List Nat)
    (utf8Enc : String → List Nat) (utf8Dec : List Nat → String)
    (iv : List Nat) (text : String)
    (hivLen : iv.length = 12)
    (hivBytes : ∀ b ∈ iv, b < 256)
    (hctBytes : ∀ b ∈ aesEnc iv (utf8Enc text), b < 256)
    (haes : aesDec iv (aesEnc iv (utf8Enc text)) = utf8Enc text)
    (hutf : utf8Dec (utf8Enc text) = text) :
    decrypt aesDec utf8Dec (encrypt aesEnc utf8Enc iv text) = text := by
  have hbytes : ∀ b ∈ iv ++ aesEnc iv (utf8Enc text), b < 256 := by
    intro b hb
    rcases List.mem_append.mp hb with h | h
    · exact hivBytes b h
    · exact hctBytes b h
  show utf8Dec (aesDec
      (List.take 12 (atobChars (btoaBytes (iv ++ aesEnc iv (utf8Enc text)))))
      (List.drop 12 (atobChars (btoaBytes (iv ++ aesEnc iv (utf8Enc text)))))) = text
  rw [atob_btoa _ hbytes, List.take_left' hivLen, List.drop_left' hivLen, haes, hutf]

/-- Witness for C2 at a concrete input: identity primitives, the zero
nonce, and the text `ok`. -/
theorem decrypt_encrypt_witness :
    decrypt (fun _ ct => ct) (fun bs => String.mk (bs.map Char.ofNat))
      (encrypt (fun _ pt => pt) (fun s => s.data.map Char.toNat)
        (List.replicate 12 0) "ok") = "ok" :=
  decrypt_encrypt (fun _ pt => pt) (fun _ ct => ct)
    (fun s => s.data.map Char.toNat) (fun bs => String.mk (bs.map Char.ofNat))
    (List.replicate 12 0) "ok"
    (by decide) (by decide) (by decide) rfl (by decide)

/-! ### Claim C3 -/

/-- Claim C3: for a configured tenant (config present with a non-falsy
installation id), if the latest cached token satisfies
`expiresAt - now > 5 minutes` then `getInstallationToken` returns exactly
that cached token and makes no outbound token-exchange call; if the
cached token expires in 5 minutes or less, or no token is cached, the
call refreshes via the outbound exchange (provided the tenant's
credentials decrypt, which the source requires before it can sign the
exchange request). -/
theorem getInstallationToken_cache_policy (st : TenantState) (cfg : GitHubAppConfig)
    (now : Nat) (dec : String → Option String) (exchange : Option TokenData)
    (hc : st.config = some cfg) (hi : falsyOpt cfg.installationId = false) :
    (∀ cached, getCachedInstallationToken st.tokens = some cached →
      (((cached.expires_at : Int) - (now : Int) > 5 * 60 * 1000 →
        (getInstallationToken st now dec exchange).result = some cached.token ∧
        (getInstallationToken st now dec exchange).networkCalled = false) ∧
       (¬ ((cached.expires_at : Int) - (now : Int) > 5 * 60 * 1000) →
        (getDecryptedCredentials st dec).isSome = true →
        (getInstallationToken st now dec exchange).networkCalled = true))) ∧
    (getCachedInstallationToken st.tokens = none →
      (getDecryptedCredentials st dec).isSome = true →
      (getInstallationToken st now dec exchange).networkCalled = true) := by
  simp only [getInstallationToken, hc, hi, Bool.false_eq_true, if_false]
  constructor
  · intro cached hcached
    simp only [hcached]
    constructor
    · intro hfresh
      rw [if_pos hfresh]
      exact ⟨rfl, rfl⟩
    · intro hstale hcreds
      rw [if_neg hstale]
      cases hdc : getDecryptedCredentials st dec with
      | none => rw [hdc] at hcreds; simp at hcreds
      | some c =>
        simp only [hdc]
        cases exchange <;> rfl
  · intro hnone hcreds
    simp only [hnone]
    cases hdc : getDecryptedCredentials st dec with
    | none => rw [hdc] at hcreds; simp at hcreds
    | some c =>
      simp only [hdc]
      cases exchange <;> rfl

/-- Witness for C3: the tenant of `st0` holds a token expiring at
10000000 ms; at `now = 0` the margin exceeds 5 minutes, so the cached
token is returned and no exchange happens. -/
theorem getInstallationToken_cache_policy_witness :
    (getInstallationToken st0 0 (fun _ => some "x") none).result = some "tokA" ∧
    (getInstallationToken st0 0 (fun _ => some "x") none).networkCalled = false :=
  ((getInstallationToken_cache_policy st0 cfg0 0 (fun _ => some "x") none rfl rfl).1
    ⟨"tokA", 10000000, 0⟩ rfl).1 (by decide)

/-! ### Claim C4 -/

/-- Counterexample to C4's "at most one token cached per partition":
after the reachable operation sequence `cexOps` (configure the tenant,
fetch a token at time 0, fetch again two minutes before that token's
expiry), the `installation_tokens` table holds two rows — the purge
`DELETE ... WHERE expires_at < now` keeps the old token because it is
stale for the 5-minute rule but not yet expired. -/
theorem two_cached_tokens_reachable : (runOps cexOps).tokens.length = 2 := by decide

/-- Claim C4, amended: whenever `getInstallationToken` stores a newly
exchanged token (i.e. the outbound exchange was made and succeeded),
cached tokens with `expiresAt < now` are purged first and the new token
is appended — but tokens that are merely stale (expiring within the
5-minute margin yet not past expiry) survive, so the partition can
transiently cache more than one token. -/
theorem getInstallationToken_store_purges_expired (st : TenantState) (now : Nat)
    (dec : String → Option String) (td : TokenData)
    (hnet : (getInstallationToken st now dec (some td)).networkCalled = true) :
    (getInstallationToken st now dec (some td)).result = some td.token ∧
    (getInstallationToken st now dec (some td)).state.tokens =
      st.tokens.filter (fun r => !decide (r.expires_at < now)) ++
        [⟨td.token, td.expires_at, now⟩] := by
  cases hcfg : st.config with
  | none => simp [getInstallationToken, hcfg] at hnet
  | some cfg =>
    cases hfi : falsyOpt cfg.installationId with
    | true => simp [getInstallationToken, hcfg, hfi] at hnet
    | false =>
      cases hdc : getDecryptedCredentials st dec with
      | none =>
        cases hcc : getCachedInstallationToken st.tokens with
        | none => simp [getInstallationToken, hcfg, hfi, hdc, hcc] at hnet
        | some cached =>
          by_cases hif : ((300000 : Int) < (cached.expires_at : Int) - (now : Int)) <;>
            simp [getInstallationToken, hcfg, hfi, hdc, hcc, hif] at hnet
      | some c =>
        cases hcc : getCachedInstallationToken st.tokens with
        | none =>
          simp [getInstallationToken, hcfg, hfi, hdc, hcc, storeInstallationTokenSQLite]
        | some cached =>
          by_cases hif : ((300000 : Int) < (cached.expires_at : Int) - (now : Int))
          · simp [getInstallationToken, hcfg, hfi, hdc, hcc, hif] at hnet
          · simp [getInstallationToken, hcfg, hfi, hdc, hcc, hif, storeInstallationTokenSQLite]

/-- Witness for the amended C4: on an empty token table the refresh at
time 5 stores the exchanged token with `created_at = 5`. -/
theorem getInstallationToken_store_purges_expired_witness :
    (getInstallationToken ⟨some cfg0, []⟩ 5 (fun _ => some "k") (some ⟨"t1", 99⟩)).result =
        some "t1" ∧
    (getInstallationToken ⟨some cfg0, []⟩ 5 (fun _ => some "k") (some ⟨"t1", 99⟩)).state.tokens =
        [⟨"t1", 99, 5⟩] :=
  getInstallationToken_store_purges_expired ⟨some cfg0, []⟩ 5 (fun _ => some "k") ⟨"t1", 99⟩ rfl

/-! ### Claim C5 -/

/-- Counterexample to C5's non-2xx clause: a downstream call that
resolves with a 404 response is returned verbatim by `containerFetch` —
the gateway does not normalize non-2xx responses into a structured 500
(only rejections, i.e. timeouts and transport failures, are caught). -/
theorem containerFetch_returns_non2xx_raw :
    containerFetch (.completed ⟨404, .passthrough "Not Found"⟩) ⟨some "c", some "/r", none⟩ =
      ⟨404, .passthrough "Not Found"⟩ ∧
    ¬ isStructuredFailure
        (containerFetch (.completed ⟨404, .passthrough "Not Found"⟩) ⟨some "c", some "/r", none⟩)
        "c" "/r" := by
  constructor
  · rfl
  · intro h
    exact absurd h.1 (by decide)

/-- Claim C5, amended: `containerFetch` never throws (it is a total
function of the race outcome); when the downstream call times out
(rejecting with the `Container fetch timeout after ...ms` error) or fails
at the transport level, it returns a structured failure response of
status 500 whose JSON body carries the `error`, `message`,
`containerName` and `route` fields; a response the downstream call
resolves with — 2xx or not — is returned unchanged. -/
theorem containerFetch_normalizes_failures :
    (∀ options r, containerFetch (.completed r) options = r) ∧
    (∀ options msg, isStructuredFailure (containerFetch (.errored msg) options)
      (options.containerName.getD "unknown") (options.route.getD "unknown")) ∧
    (∀ options, isStructuredFailure (containerFetch .timedOut options)
      (options.containerName.getD "unknown") (options.route.getD "unknown")) :=
  ⟨fun _ _ => rfl,
   fun _ msg => ⟨rfl, msg, rfl⟩,
   fun options =>
     ⟨rfl,
      "Container fetch timeout after " ++ toString (options.timeout.getD 300000) ++ "ms",
      rfl⟩⟩

/-! ### Claim C6 -/

/-- Claim C6: `getDecryptedCredentials` is total (never throws across the
boundary — decryption throws are caught and modelled by the oracle
returning `none`), returns `none` exactly when no credential is stored or
decrypting either secret fails, and returns the decrypted pair
otherwise. -/
theorem getDecryptedCredentials_spec (st : TenantState) (dec : String → Option String) :
    (getDecryptedCredentials st dec = none ↔
      st.config = none ∨ ∃ cfg, st.config = some cfg ∧
        (dec cfg.privateKey = none ∨ dec cfg.webhookSecret = none)) ∧
    (∀ cfg pk ws, st.config = some cfg → dec cfg.privateKey = some pk →
      dec cfg.webhookSecret = some ws →
      getDecryptedCredentials st dec = some ⟨pk, ws⟩) := by
  cases hc : st.config with
  | none =>
    constructor
    · simp [getDecryptedCredentials, hc]
    · intro cfg pk ws h hp hw
      exact absurd h (by simp)
  | some cfg1 =>
    constructor
    · cases h1 : dec cfg1.privateKey <;> cases h2 : dec cfg1.webhookSecret <;>
        simp [getDecryptedCredentials, hc, h1, h2]
    · intro cfg pk ws h hp hw
      injection h with h
      subst h
      simp [getDecryptedCredentials, hc, hp, hw]

/-- Witness for C6: with a stored credential and an always-succeeding
decryption oracle, the decrypted pair is returned. -/
theorem getDecryptedCredentials_spec_witness :
    getDecryptedCredentials ⟨some cfg0, []⟩ (fun s => some s) =
      some ⟨"enc-private-key", "enc-webhook-secret"⟩ :=
  (getDecryptedCredentials_spec ⟨some cfg0, []⟩ (fun s => some s)).2
    cfg0 "enc-private-key" "enc-webhook-secret" rfl rfl rfl

/-! ### Claim C7 -/

/-- Counterexample to C7 as universally stated: a `ping` webhook that
lacks the `x-hub-signature-256` header is rejected with 400 by the
missing-headers guard, which runs before the ping special case — it does
not receive the 200 acknowledgment. -/
theorem ping_without_signature_not_200 :
    (handleGitHubWebhook ⟨"{}", none, some "ping", some "d2", none⟩
      (fun _ => some ⟨none, none⟩) (fun _ => .fetchFail) (fun _ _ => [])
      (fun _ => ⟨200, "ok"⟩)).response.status ≠ 200 := by decide

/-- Claim C7, amended: for every inbound webhook that carries non-falsy
signature, event-type and delivery headers and a parseable JSON payload,
if the event type is `ping` the handler responds 200 immediately —
without resolving a tenant, fetching a credential, verifying the
signature, logging the delivery, or routing to an event handler. -/
theorem ping_acknowledged (req : WebhookRequest)
    (parse : String → Option ParsedPayload) (credsFetch : String → CredsFetch)
    (hmac : String → String → List Nat) (handlers : String → WebhookResponse)
    (pd : ParsedPayload)
    (hs : falsyOpt req.signature = false) (he : req.event = some "ping")
    (hd : falsyOpt req.delivery = false) (hp : parse req.payload = some pd) :
    handleGitHubWebhook req parse credsFetch hmac handlers =
      ⟨⟨200, "Webhook endpoint is active"⟩, false, false, false, false, none⟩ := by
  simp [handleGitHubWebhook, hs, he, hd, hp,
    show falsyOpt (some "ping") = false from rfl]

/-- Witness for the amended C7: a fully-headed ping request is
acknowledged with 200 and no effects. -/
theorem ping_acknowledged_witness :
    handleGitHubWebhook ⟨"{}", some "sha256=00", some "ping", some "d3", none⟩
      (fun _ => some ⟨none, none⟩) (fun _ => .fetchFail) (fun _ _ => [])
      (fun _ => ⟨200, "ok"⟩) =
      ⟨⟨200, "Webhook endpoint is active"⟩, false, false, false, false, none⟩ :=
  ping_acknowledged _ _ _ _ _ ⟨none, none⟩ (by decide) rfl (by decide) rfl

/-! ### Claim C10 -/

/-- Claim C10: an inbound webhook missing any of the signature,
event-type or delivery headers is answered 400 before any tenant
resolution, credential fetch, signature verification, webhook logging or
routing — including when the event type is `ping`. -/
theorem missing_headers_rejected (req : WebhookRequest)
    (parse : String → Option ParsedPayload) (credsFetch : String → CredsFetch)
    (hmac : String → String → List Nat) (handlers : String → WebhookResponse)
    (h : req.signature = none ∨ req.event = none ∨ req.delivery = none) :
    handleGitHubWebhook req parse credsFetch hmac handlers =
      ⟨⟨400, "Missing required headers"⟩, false, false, false, false, none⟩ := by
  rcases h with h | h | h <;> simp [handleGitHubWebhook, falsyOpt, h]

/-- Witness for C10: a ping request lacking the signature header gets the
400 missing-headers response, not the ping acknowledgment. -/
theorem missing_headers_rejected_witness :
    handleGitHubWebhook ⟨"{}", none, some "ping", some "d1", none⟩
      (fun _ => some ⟨none, none⟩) (fun _ => .fetchFail) (fun _ _ => [])
      (fun _ => ⟨200, "ok"⟩) =
      ⟨⟨400, "Missing required headers"⟩, false, false, false, false, none⟩ :=
  missing_headers_rejected _ _ _ _ _ (Or.inl rfl)

/-! ### Claim C8 -/

/-- Claim C8: the stored repository list behaves as a set keyed by id —
`addRepository` of an id already present leaves the state unchanged,
adding the same repository twice leaves exactly one entry with that id,
and `removeRepository` of an absent id leaves the state unchanged. -/
theorem repository_set_semantics (st : TenantState) (cfg : GitHubAppConfig)
    (repo : Repository) (rid : Nat) (hc : st.config = some cfg) :
    (cfg.repositories.any (fun r => r.id == repo.id) = true →
      addRepository st repo = st) ∧
    ((∀ r ∈ cfg.repositories, r.id ≠ repo.id) →
      ((reposOf (addRepository (addRepository st repo) repo)).filter
        (fun r => r.id == repo.id)).length = 1) ∧
    ((∀ r ∈ cfg.repositories, r.id ≠ rid) → removeRepository st rid = st) := by
  obtain ⟨c, tks⟩ := st
  simp only [TenantState.mk.injEq] at hc
  subst hc
  refine ⟨?_, ?_, ?_⟩
  · intro h
    simp [addRepository, h]
  · intro h
    have hany : cfg.repositories.any (fun r => r.id == repo.id) = false := by
      rw [List.any_eq_false]
      intro r hr
      simpa using h r hr
    have h1 : addRepository ⟨some cfg, tks⟩ repo =
        ⟨some { cfg with repositories := cfg.repositories ++ [repo] }, tks⟩ := by
      simp [addRepository, hany, storeAppConfig]
    rw [h1]
    have hany2 : ({ cfg with repositories := cfg.repositories ++ [repo] } :
        GitHubAppConfig).repositories.any (fun r => r.id == repo.id) = true := by
      simp [List.any_append]
    have h2 : addRepository
        ⟨some { cfg with repositories := cfg.repositories ++ [repo] }, tks⟩ repo =
        ⟨some { cfg with repositories := cfg.repositories ++ [repo] }, tks⟩ := by
      simp [addRepository, hany2]
    rw [h2]
    have hnil : cfg.repositories.filter (fun r => r.id == repo.id) = [] := by
      rw [List.filter_eq_nil_iff]
      intro r hr
      simpa using h r hr
    simp [reposOf, List.filter_append, hnil]
  · intro h
    have hself : cfg.repositories.filter (fun r => !(r.id == rid)) = cfg.repositories := by
      rw [List.filter_eq_self]
      intro r hr
      simpa using h r hr
    simp [removeRepository, storeAppConfig, hself]

/-- Witness for C8: starting from `cfg0` (empty repository list), adding
repository 7 twice leaves exactly one entry with id 7. -/
theorem repository_set_semantics_witness :
    ((reposOf (addRepository (addRepository ⟨some cfg0, []⟩ ⟨7, "r", "o/r", false⟩)
        ⟨7, "r", "o/r", false⟩)).filter (fun r => r.id == 7)).length = 1 :=
  (repository_set_semantics ⟨some cfg0, []⟩ cfg0 ⟨7, "r", "o/r", false⟩ 5 rfl).2.1
    (by decide)
